import Mathlib

/-!
Shallow embedding of `src/render_monitor.py` (Polymarket BTC 15-minute market
monitor), for checking the natural-language specification against the code.

Modelling conventions:
* Timestamps are integers counting seconds (UTC).  The WIB display offset
  (+7 hours) only affects rendered strings.
* Python floats are modelled as rationals (`ℚ`); the comparisons performed by
  the program are exact on the values that occur.
* A JSON field that may be absent (dict `.get` returning `None`) is an
  `Option`.  The `end_date_iso` field is modelled as the already-parsed close
  timestamp: `none` collapses the three Python paths "key absent", "empty
  string" and "`datetime.fromisoformat` raised", all of which make
  `analyze_market_timing` return its not-classifiable result.
* Code that can raise is modelled in `Except String`; the error string stands
  for the Python exception message.  `float()` on a string is modelled by a
  decimal parser (`parse_float`) covering the inputs the program meets;
  Python's exact decimal rendering (`:.2f` etc.) is abstracted by `fmtQ`,
  which no claim's truth depends on.
-/

/-- One element of a market record's `"markets"` list: an outcome leg with an
optional `"outcome"` label and an optional `"outcomePrices"` list. -/
structure Leg where
  outcome : Option String
  outcomePrices : Option (List String)
  deriving Repr, DecidableEq

/-- A JSON numeric field that may arrive as a number or as a string. -/
inductive JsonNum where
  | num (q : ℚ)
  | str (s : String)
  deriving Repr, DecidableEq

/-- A Polymarket event record, with the fields `render_monitor.py` reads:
`end_date_iso` (modelled as the parsed close timestamp), `slug`, the
`markets` list of outcome legs, and `volume`. -/
structure Market where
  end_date_iso : Option Int
  slug : Option String
  markets : List Leg
  volume : Option JsonNum
  deriving Repr, DecidableEq

/-- Whether the list `pre` is a prefix of `l` (over characters). -/
def isPrefixList : List Char → List Char → Bool
  | [], _ => true
  | _ :: _, [] => false
  | a :: as, b :: bs => a == b && isPrefixList as bs

/-- Whether `needle` occurs as a contiguous sublist of `hay`; models the
Python substring test `needle in hay`. -/
def containsSub (needle : List Char) : List Char → Bool
  | [] => isPrefixList needle []
  | h :: t => isPrefixList needle (h :: t) || containsSub needle t

/-- ASCII lower-casing of one character; models Python `str.lower` on the
ASCII outcome labels the program meets. -/
def lowerChar (c : Char) : Char :=
  if 65 ≤ c.toNat ∧ c.toNat ≤ 90 then Char.ofNat (c.toNat + 32) else c

/-- Leading and trailing spaces removed (Python `float` ignores surrounding
whitespace). -/
def trimChars (l : List Char) : List Char :=
  ((l.dropWhile (fun c => c == ' ')).reverse.dropWhile (fun c => c == ' ')).reverse

/-- Split at the first decimal point: the digits before it, and the
characters after it when one is present. -/
def splitAtDot : List Char → List Char × Option (List Char)
  | [] => ([], none)
  | c :: cs =>
      if c == '.' then ([], some cs)
      else
        let r := splitAtDot cs
        (c :: r.1, r.2)

/-- Value of a digit string. -/
def digitsVal (l : List Char) : Nat :=
  l.foldl (fun n c => n * 10 + (c.toNat - 48)) 0

/-- Unsigned part of float parsing: digits with an optional fractional part.
A second decimal point lands in the fractional part and fails its digit
test, as Python `float` rejects it. -/
def parseUnsigned (l : List Char) : Option ℚ :=
  match splitAtDot l with
  | (ip, none) =>
      if ip.length > 0 ∧ ip.all Char.isDigit then some (digitsVal ip : ℚ) else none
  | (ip, some fp) =>
      if (ip.length > 0 ∨ fp.length > 0) ∧ ip.all Char.isDigit ∧ fp.all Char.isDigit then
        some ((digitsVal ip : ℚ) + (digitsVal fp : ℚ) / (10 : ℚ) ^ fp.length)
      else none

/-- Model of Python `float(s)` on a string: optional sign, decimal digits
with an optional fractional part.  Returns `none` where Python raises
`ValueError`. -/
def parse_float (s : String) : Option ℚ :=
  match trimChars s.toList with
  | '-' :: t => (parseUnsigned t).map (fun q => -q)
  | '+' :: t => parseUnsigned t
  | t => parseUnsigned t

/-- Model of Python `float(x)` on a JSON value that is a number or a string;
an unparsable string is the `ValueError` path. -/
def pyFloat : JsonNum → Except String ℚ
  | .num q => .ok q
  | .str s =>
      match parse_float s with
      | some q => .ok q
      | none => .error ("could not convert string to float: " ++ s)

/-- `float(market.get("volume", 0))` from lines 126 and 203. -/
def parseVolume (v : Option JsonNum) : Except String ℚ :=
  pyFloat (v.getD (.num 0))

/-- `needle in m.get("outcome", "").lower()` from lines 115-116 / 198-199. -/
def leg_outcome_matches (needle : String) (leg : Leg) : Bool :=
  containsSub needle.toList (List.map lowerChar (leg.outcome.getD "").toList)

/-- `next((m for m in markets_data if "up" in m.get("outcome", "").lower()), None)`. -/
def find_up_leg (legs : List Leg) : Option Leg :=
  legs.find? (leg_outcome_matches "up")

/-- `next((m for m in markets_data if "down" in m.get("outcome", "").lower()), None)`. -/
def find_down_leg (legs : List Leg) : Option Leg :=
  legs.find? (leg_outcome_matches "down")

/-- `float(leg.get("outcomePrices", ["0.5"])[0]) * 100` from lines 122-123 and
201-202: the default list applies only when the key is absent; a present but
empty list is the `IndexError` path, an unparsable entry the `ValueError`
path. -/
def getLegOdds (leg : Leg) : Except String ℚ :=
  match leg.outcomePrices.getD ["0.5"] with
  | [] => .error "list index out of range"
  | p :: _ =>
      match pyFloat (.str p) with
      | .ok q => .ok (q * 100)
      | .error e => .error e

/-- The formatter's `... if up_market else 50` (lines 201-202): an absent leg
renders as 50. -/
def formatLegOdds : Option Leg → Except String ℚ
  | none => .ok 50
  | some leg => getLegOdds leg

/-- Abstracted numeric rendering standing for Python format specifiers such
as `:.2f`, `:.0f`, `:.1f`, `:,.0f` (display only; no claim depends on the
digits). -/
def fmtQ (q : ℚ) : String :=
  toString q

/-- `analyze_market_timing(market, now)` (lines 65-99), with `now` passed
explicitly.  Returns the `(is_new, start_time, minutes_running)` triple; the
`(False, None, None)` result models both the missing/unparsable close time
and the not-currently-running cases. -/
def analyze_market_timing (market : Market) (now : Int) : Bool × Option Int × Option ℚ :=
  match market.end_date_iso with
  | none => (false, none, none)
  | some end_time =>
      let start_time := end_time - 15 * 60
      if now < start_time ∨ now > end_time then (false, none, none)
      else
        let minutes_running : ℚ := ((now - start_time : Int) : ℚ) / 60
        let is_new := decide (0 ≤ minutes_running ∧ minutes_running ≤ 3)
        (is_new, some start_time, some minutes_running)

/-- Momentum factor, lines 132-147: score contribution and appended rationale
line (none appended when the 24h change is unknown). -/
def momentum_factor (btc_change_24h : Option ℚ) : Int × List String :=
  match btc_change_24h with
  | none => (0, [])
  | some c =>
      if c > 2 then (2, ["BTC strong bullish momentum (+" ++ fmtQ c ++ "%)"])
      else if c > 0.5 then (1, ["BTC bullish (+" ++ fmtQ c ++ "%)"])
      else if c < -2 then (-2, ["BTC strong bearish momentum (" ++ fmtQ c ++ "%)"])
      else if c < -0.5 then (-1, ["BTC bearish (" ++ fmtQ c ++ "%)"])
      else (0, ["BTC neutral (" ++ fmtQ c ++ "%)"])

/-- Crowd-sentiment factor, lines 149-158: score contribution and rationale. -/
def crowd_factor (up_odds down_odds : ℚ) : Int × String :=
  let odds_diff := up_odds - down_odds
  if odds_diff > 10 then
    (1, "Crowd leans UP (" ++ fmtQ up_odds ++ "% vs " ++ fmtQ down_odds ++ "%)")
  else if odds_diff < -10 then
    (-1, "Crowd leans DOWN (" ++ fmtQ up_odds ++ "% vs " ++ fmtQ down_odds ++ "%)")
  else
    (0, "Crowd neutral (" ++ fmtQ up_odds ++ "% vs " ++ fmtQ down_odds ++ "%)")

/-- Volume factor, lines 160-166: advisory rationale only, no score change. -/
def volume_factor (volume : ℚ) : String :=
  if volume < 100 then "⚠️ Very low volume ($" ++ fmtQ volume ++ ") - high risk!"
  else if volume < 500 then "Low volume ($" ++ fmtQ volume ++ ") - moderate risk"
  else "Good volume ($" ++ fmtQ volume ++ ")"

/-- Score-to-label mapping, lines 169-177. -/
def score_to_prediction (score : Int) : String × String :=
  if score ≥ 2 then ("UP 📈", if score ≥ 3 then "HIGH" else "MEDIUM")
  else if score ≤ -2 then ("DOWN 📉", if score ≤ -3 then "HIGH" else "MEDIUM")
  else ("NEUTRAL ➡️", "LOW")

/-- The `try` body of `generate_prediction` (lines 108-181): any raising
operation is in `Except`, so `.error` marks exactly the states where the
Python body raises. -/
def generate_prediction_core (btc_change_24h : Option ℚ) (market : Market) :
    Except String (String × String × String) :=
  let markets_data := market.markets
  if markets_data.length < 2 then .ok ("UNKNOWN", "LOW", "Insufficient market data")
  else
    match find_up_leg markets_data, find_down_leg markets_data with
    | some up_market, some down_market =>
        match getLegOdds up_market with
        | .error e => .error e
        | .ok up_odds =>
            match getLegOdds down_market with
            | .error e => .error e
            | .ok down_odds =>
                match parseVolume market.volume with
                | .error e => .error e
                | .ok volume =>
                    let mf := momentum_factor btc_change_24h
                    let cf := crowd_factor up_odds down_odds
                    let score := mf.1 + cf.1
                    let factors := mf.2 ++ [cf.2, volume_factor volume]
                    let pc := score_to_prediction score
                    .ok (pc.1, pc.2,
                      String.intercalate "\n" (factors.map (fun f => "  • " ++ f)))
    | _, _ => .ok ("UNKNOWN", "LOW", "Cannot find UP/DOWN outcomes")

/-- `generate_prediction(btc_price, btc_change_24h, market)` (lines 101-184):
the `except` clause turns any raised exception into the
`("UNKNOWN", "LOW", "Error in prediction: ...")` triple.  `btc_price` is a
parameter of the source function but is never read by its body. -/
def generate_prediction (btc_price btc_change_24h : Option ℚ) (market : Market) :
    String × String × String :=
  match generate_prediction_core btc_change_24h market with
  | .ok r => r
  | .error e => ("UNKNOWN", "LOW", "Error in prediction: " ++ e)

/-- Two-digit rendering of a number below 100. -/
def pad2 (n : Nat) : String :=
  if n < 10 then "0" ++ toString n else toString n

/-- Seconds-of-day in the WIB display zone (UTC+7) of a UTC timestamp. -/
def wibSecondOfDay (t : Int) : Nat :=
  (((t + 7 * 3600) % 86400 + 86400) % 86400).toNat

/-- `strftime('%H:%M:%S')` of a timestamp rendered in WIB. -/
def fmtHMS (t : Int) : String :=
  let s := wibSecondOfDay t
  pad2 (s / 3600) ++ ":" ++ pad2 (s % 3600 / 60) ++ ":" ++ pad2 (s % 60)

/-- `strftime('%H:%M')` of a timestamp rendered in WIB. -/
def fmtHM (t : Int) : String :=
  let s := wibSecondOfDay t
  pad2 (s / 3600) ++ ":" ++ pad2 (s % 3600 / 60)

/-- The `'='*50` separator line of the message template. -/
def sep50 : String :=
  String.mk (List.replicate 50 '=')

/-- The message template of lines 219-243, assembled from the already
computed pieces (numeric and time rendering abstracted by `fmtQ`/`fmtHMS`). -/
def buildMessage (market_url prediction confidence reasoning : String)
    (bp bc up_odds down_odds volume : ℚ) (start_time : Int) (minutes_running : ℚ) :
    String :=
  let close_time := start_time + 15 * 60
  let time_to_close := (15 : ℚ) - minutes_running
  let btc_emoji := if bc > 0 then "📈" else "📉"
  let volume_warning :=
    if volume < 100 then "\n\n⚠️ **CRITICAL WARNING: Very low volume - extremely high risk!**"
    else if volume < 500 then "\n\n⚠️ **WARNING: Low volume - high risk!**"
    else ""
  "🔔 **MARKET BARU DIMULAI!**\n\n" ++ sep50 ++
    "\n⏰ **STARTED AT:** " ++ fmtHMS start_time ++ " WIB\n" ++ sep50 ++
    "\n\n🔗 " ++ market_url ++
    "\n\n📊 **PREDIKSI: " ++ prediction ++ " " ++ confidence.toUpper ++ "**\nConfidence: " ++
    confidence ++ "\n\n💡 **Analisis:**\n" ++ reasoning ++
    "\n\n💰 **Market Conditions:**\n- BTC: $" ++ fmtQ bp ++ " (" ++ fmtQ bc ++ "% 24h) " ++
    btc_emoji ++ "\n- Odds: " ++ fmtQ up_odds ++ "% UP / " ++ fmtQ down_odds ++ "% DOWN" ++
    "\n- Volume: $" ++ fmtQ volume ++ volume_warning ++
    "\n\n⏱️ **Timing:**\n- Started: " ++ fmtHM start_time ++ " WIB\n- Closes: " ++
    fmtHM close_time ++ " WIB  \n- Time to Close: " ++ fmtQ time_to_close ++
    " minutes\n- Running: " ++ fmtQ minutes_running ++ " minutes\n"

/-- `format_notification(market, btc_price, btc_change_24h, start_time_wib,
minutes_running)` (lines 186-245).  The function has no exception handler, so
every raising operation surfaces as `.error`: an `IndexError`/`ValueError`
from the leg odds (lines 201-202), a `ValueError` from `float(volume)`
(line 203), or the f-string `TypeError` when `btc_price` or `btc_change_24h`
is `None` (line 234). -/
def format_notification (market : Market) (btc_price btc_change_24h : Option ℚ)
    (start_time : Int) (minutes_running : ℚ) : Except String String :=
  let pcr := generate_prediction btc_price btc_change_24h market
  let slug := market.slug.getD "unknown"
  let market_url := "https://polymarket.com/event/" ++ slug
  let markets_data := market.markets
  match formatLegOdds (find_up_leg markets_data) with
  | .error e => .error e
  | .ok up_odds =>
      match formatLegOdds (find_down_leg markets_data) with
      | .error e => .error e
      | .ok down_odds =>
          match parseVolume market.volume with
          | .error e => .error e
          | .ok volume =>
              match btc_price with
              | none => .error "unsupported format string passed to NoneType"
              | some bp =>
                  match btc_change_24h with
                  | none => .error "unsupported format string passed to NoneType"
                  | some bc =>
                      .ok (buildMessage market_url pcr.1 pcr.2.1 pcr.2.2
                        bp bc up_odds down_odds volume start_time minutes_running)

/-- `send_notification(message)` (lines 247-266), with the webhook URL and
the HTTP transport passed explicitly.  Returns the success flag and the list
of console print payloads; `if not NEBULA_WEBHOOK_URL` treats an unset (or
empty) URL as unconfigured. -/
def send_notification (webhook_url : Option String)
    (post : String → Except String Unit) (message : String) : Bool × List String :=
  if webhook_url.getD "" = "" then
    (false, ["⚠️  NEBULA_WEBHOOK_URL not set - notification not sent",
             "\n" ++ message ++ "\n"])
  else
    match post message with
    | .ok _ => (true, ["✅ Notification sent successfully"])
    | .error e =>
        (false, ["❌ Error sending notification: " ++ e,
                 "\nMessage that failed to send:\n" ++ message ++ "\n"])

/-- The per-market loop of `check_for_new_markets` (lines 288-306): classify
each market; when fresh, format and dispatch.  The loop body has no exception
handler, so a `.error` from `format_notification` propagates and aborts the
remaining iterations, exactly as a raised exception would escape to `main`. -/
def process_markets (btc_price btc_change_24h : Option ℚ) (webhook_url : Option String)
    (post : String → Except String Unit) (now : Int) :
    List Market → Except String (List (Bool × List String))
  | [] => .ok []
  | market :: rest =>
      match analyze_market_timing market now with
      | (true, some st, some mins) =>
          match format_notification market btc_price btc_change_24h st mins with
          | .error e => .error e
          | .ok msg =>
              match process_markets btc_price btc_change_24h webhook_url post now rest with
              | .error e => .error e
              | .ok results =>
                  .ok (send_notification webhook_url post msg :: results)
      | _ => process_markets btc_price btc_change_24h webhook_url post now rest

/-- Whether a market's pipeline step cannot abort the cycle: either it is not
fresh, or its notification formats without raising. -/
def fresh_format_ok (btc_price btc_change_24h : Option ℚ) (now : Int) (market : Market) :
    Bool :=
  match analyze_market_timing market now with
  | (true, some st, some mins) =>
      (format_notification market btc_price btc_change_24h st mins).isOk
  | _ => true

/-- Transport stub for theorems quantified over the notification channel. -/
def postStub : String → Except String Unit := fun _ => .ok ()

/-- A fresh market (at `now = 1000`) whose `volume` field is an unparsable
string, so `format_notification` raises while `generate_prediction` absorbs
the same error. -/
def badVolumeMarket : Market := ⟨some 1840, none, [], some (.str "xx")⟩

/-- A fresh market (at `now = 1000`) that formats without error. -/
def freshMarketOk : Market := ⟨some 1840, some "ok", [], none⟩

/-- A market whose up leg carries an unparsable price string. -/
def badPriceMarket : Market :=
  ⟨some 0, some "s", [⟨some "Up", some ["abc"]⟩, ⟨some "Down", some ["0.35"]⟩], some (.num 1000)⟩

/-- A market with a single outcome leg. -/
def oneLegMarket : Market := ⟨some 0, some "s", [⟨some "Up", some ["0.5"]⟩], none⟩

/-- A two-leg market in which no outcome label contains "up" or "down". -/
def noUpDownMarket : Market := ⟨some 0, some "s", [⟨some "Yes", none⟩, ⟨some "No", none⟩], none⟩

/-- A well-formed two-leg market with parsable prices and volume. -/
def plainMarket : Market :=
  ⟨some 1840, some "btc-updown", [⟨some "Up", some ["0.6"]⟩, ⟨some "Down", some ["0.4"]⟩],
   some (.num 1000)⟩

/-- A two-leg market whose legs both lack the `outcomePrices` field. -/
def noPricesMarket : Market :=
  ⟨some 1840, some "s", [⟨some "Up", none⟩, ⟨some "Down", none⟩], none⟩

/-- A leg lacking the `outcomePrices` field. -/
def noPricesLeg : Leg := ⟨some "Up", none⟩

/-- Closed form of `analyze_market_timing` on a market with a parsed close
timestamp. -/
theorem analyze_eq_some (m : Market) (c : Int) (hm : m.end_date_iso = some c) (now : Int) :
    analyze_market_timing m now =
      if now < c - 15 * 60 ∨ now > c then (false, none, none)
      else (decide (0 ≤ ((now - (c - 15 * 60) : Int) : ℚ) / 60 ∧
              ((now - (c - 15 * 60) : Int) : ℚ) / 60 ≤ 3),
            some (c - 15 * 60), some (((now - (c - 15 * 60) : Int) : ℚ) / 60)) := by
  unfold analyze_market_timing
  rw [hm]

/-- `analyze_market_timing` on a market with no parsed close timestamp. -/
theorem analyze_eq_none (m : Market) (hm : m.end_date_iso = none) (now : Int) :
    analyze_market_timing m now = (false, none, none) := by
  unfold analyze_market_timing
  rw [hm]

/-- Elapsed seconds over 60 lie in `[0, 3]` minutes iff the seconds lie in
`[0, 180]`. -/
theorem minutes_window_iff (d : Int) :
    (0 ≤ (d : ℚ) / 60 ∧ (d : ℚ) / 60 ≤ 3) ↔ (0 ≤ d ∧ d ≤ 180) := by
  have h60 : (0 : ℚ) < 60 := by norm_num
  rw [le_div_iff₀ h60, div_le_iff₀ h60, zero_mul]
  constructor
  · rintro ⟨h1, h2⟩
    refine ⟨by exact_mod_cast h1, ?_⟩
    have : (d : ℚ) ≤ 180 := by linarith
    exact_mod_cast this
  · rintro ⟨h1, h2⟩
    have : (d : ℚ) ≤ 180 := by exact_mod_cast h2
    exact ⟨by exact_mod_cast h1, by linarith⟩

/-- Nonnegative seconds over 60 are nonnegative minutes. -/
theorem div60_nonneg_of (d : Int) (h : 0 ≤ d) : 0 ≤ (d : ℚ) / 60 :=
  div_nonneg (by exact_mod_cast h) (by norm_num)

/-- At most 900 seconds over 60 is at most 15 minutes. -/
theorem div60_le_fifteen (d : Int) (h : d ≤ 900) : (d : ℚ) / 60 ≤ 15 := by
  rw [div_le_iff₀ (by norm_num : (0 : ℚ) < 60)]
  have hd : (d : ℚ) ≤ 900 := by exact_mod_cast h
  linarith

/-- Claim C1: for every close timestamp `c` and evaluation time `now` (in
seconds), the window classifier returns freshness = true iff
`0 ≤ now − (c − 15 min) ≤ 3 min` and `now ≤ c`; for any `now` outside
`[c − 15 min, c]` it returns freshness = false. -/
theorem claim1_freshness_iff (slug : Option String) (legs : List Leg)
    (vol : Option JsonNum) (c now : Int) :
    ((analyze_market_timing ⟨some c, slug, legs, vol⟩ now).1 = true ↔
      (0 ≤ now - (c - 15 * 60) ∧ now - (c - 15 * 60) ≤ 3 * 60 ∧ now ≤ c)) ∧
    (now < c - 15 * 60 ∨ c < now →
      (analyze_market_timing ⟨some c, slug, legs, vol⟩ now).1 = false) := by
  have hmk : (Market.mk (some c) slug legs vol).end_date_iso = some c := rfl
  constructor
  · rw [analyze_eq_some _ c hmk now]
    by_cases h : now < c - 15 * 60 ∨ now > c
    · rw [if_pos h]
      constructor
      · intro hft; exact absurd hft (by simp)
      · rintro ⟨h1, h2, h3⟩; exfalso; omega
    · rw [if_neg h]
      show decide _ = true ↔ _
      rw [decide_eq_true_eq, minutes_window_iff]
      omega
  · intro h
    rw [analyze_eq_some _ c hmk now, if_pos (by omega : now < c - 15 * 60 ∨ now > c)]

/-- Witness for C1 at concrete inputs: close `c = 1000`; `now = 100` is one
minute into the window (fresh), `now = 2000` is past close (not fresh). -/
theorem claim1_witness :
    (analyze_market_timing ⟨some 1000, none, [], none⟩ 100).1 = true ∧
    (analyze_market_timing ⟨some 1000, none, [], none⟩ 2000).1 = false :=
  ⟨(claim1_freshness_iff none [] none 1000 100).1.mpr (by decide),
   (claim1_freshness_iff none [] none 1000 2000).2 (by decide)⟩

/-- Claim C2: the score-to-label mapping is total and exhaustive: score ≥ 3
yields UP/HIGH, score = 2 yields UP/MEDIUM, score ∈ {−1, 0, 1} yields
NEUTRAL/LOW, score = −2 yields DOWN/MEDIUM, score ≤ −3 yields DOWN/HIGH. -/
theorem claim2_score_mapping (s : Int) :
    (3 ≤ s → score_to_prediction s = ("UP 📈", "HIGH")) ∧
    (s = 2 → score_to_prediction s = ("UP 📈", "MEDIUM")) ∧
    (-1 ≤ s ∧ s ≤ 1 → score_to_prediction s = ("NEUTRAL ➡️", "LOW")) ∧
    (s = -2 → score_to_prediction s = ("DOWN 📉", "MEDIUM")) ∧
    (s ≤ -3 → score_to_prediction s = ("DOWN 📉", "HIGH")) := by
  unfold score_to_prediction
  refine ⟨fun h => ?_, fun h => ?_, fun h => ?_, fun h => ?_, fun h => ?_⟩ <;>
    split_ifs <;> first | rfl | omega

/-- Witness for C2 at one concrete score per band. -/
theorem claim2_witness :
    score_to_prediction 3 = ("UP 📈", "HIGH") ∧
    score_to_prediction 2 = ("UP 📈", "MEDIUM") ∧
    score_to_prediction 0 = ("NEUTRAL ➡️", "LOW") ∧
    score_to_prediction (-2) = ("DOWN 📉", "MEDIUM") ∧
    score_to_prediction (-3) = ("DOWN 📉", "HIGH") :=
  ⟨(claim2_score_mapping 3).1 (by decide),
   (claim2_score_mapping 2).2.1 rfl,
   (claim2_score_mapping 0).2.2.1 (by decide),
   (claim2_score_mapping (-2)).2.2.2.1 rfl,
   (claim2_score_mapping (-3)).2.2.2.2 (by decide)⟩

/-- Claim C7: the momentum factor adds 2 when the 24h change exceeds 2, adds
1 on (0.5, 2], subtracts 2 below −2, subtracts 1 on [−2, −0.5), leaves the
score unchanged on [−0.5, 0.5], and is skipped entirely (no score change, no
rationale line) when the change is unknown. -/
theorem claim7_momentum (x : ℚ) :
    momentum_factor none = (0, []) ∧
    (2 < x → (momentum_factor (some x)).1 = 2) ∧
    (0.5 < x ∧ x ≤ 2 → (momentum_factor (some x)).1 = 1) ∧
    (x < -2 → (momentum_factor (some x)).1 = -2) ∧
    (-2 ≤ x ∧ x < -0.5 → (momentum_factor (some x)).1 = -1) ∧
    (-0.5 ≤ x ∧ x ≤ 0.5 → (momentum_factor (some x)).1 = 0) := by
  refine ⟨rfl, ?_, ?_, ?_, ?_, ?_⟩
  · intro h
    simp only [momentum_factor]
    rw [if_pos h]
  · rintro ⟨h1, h2⟩
    simp only [momentum_factor]
    rw [if_neg (not_lt.mpr h2), if_pos h1]
  · intro h
    simp only [momentum_factor]
    rw [if_neg (not_lt.mpr (by linarith)), if_neg (not_lt.mpr (by linarith)), if_pos h]
  · rintro ⟨h1, h2⟩
    simp only [momentum_factor]
    rw [if_neg (not_lt.mpr (by linarith)), if_neg (not_lt.mpr (by linarith)),
      if_neg (not_lt.mpr h1), if_pos h2]
  · rintro ⟨h1, h2⟩
    simp only [momentum_factor]
    rw [if_neg (not_lt.mpr (by linarith)), if_neg (not_lt.mpr h2),
      if_neg (not_lt.mpr (by linarith)), if_neg (not_lt.mpr h1)]

/-- Witness for C7 at one concrete change per band, plus the unknown case. -/
theorem claim7_witness :
    momentum_factor none = (0, []) ∧
    (momentum_factor (some 3)).1 = 2 ∧
    (momentum_factor (some 1)).1 = 1 ∧
    (momentum_factor (some (-3))).1 = -2 ∧
    (momentum_factor (some (-1))).1 = -1 ∧
    (momentum_factor (some 0)).1 = 0 :=
  ⟨(claim7_momentum 0).1,
   (claim7_momentum 3).2.1 (by norm_num),
   (claim7_momentum 1).2.2.1 (by norm_num),
   (claim7_momentum (-3)).2.2.2.1 (by norm_num),
   (claim7_momentum (-1)).2.2.2.2.1 (by norm_num),
   (claim7_momentum 0).2.2.2.2.2 (by norm_num)⟩

/-- Claim C10: whenever the window classifier returns a classification (a
non-`None` minutes value), the elapsed minutes lie in `[0, 15]`. -/
theorem claim10_minutes_range (m : Market) (now : Int) (b : Bool) (st : Int) (q : ℚ)
    (h : analyze_market_timing m now = (b, some st, some q)) :
    0 ≤ q ∧ q ≤ 15 := by
  cases hm : m.end_date_iso with
  | none =>
      rw [analyze_eq_none m hm now] at h
      simp at h
  | some c =>
      rw [analyze_eq_some m c hm now] at h
      by_cases hc : now < c - 15 * 60 ∨ now > c
      · rw [if_pos hc] at h
        simp at h
      · rw [if_neg hc] at h
        have hq : (((now - (c - 15 * 60) : Int) : ℚ) / 60) = q := by
          have := congrArg (fun t : Bool × Option Int × Option ℚ => t.2.2) h
          simpa using this
        rw [← hq]
        constructor
        · exact div60_nonneg_of _ (by omega)
        · exact div60_le_fifteen _ (by omega)

/-- Evaluation helper: any market closing at 1840 is, at `now = 1000`, one
minute into its window and fresh. -/
theorem analyze_fresh_1000 (m : Market) (hm : m.end_date_iso = some 1840) :
    analyze_market_timing m 1000 = (true, some 940, some 1) := by
  rw [analyze_eq_some m 1840 hm 1000, if_neg (by decide)]
  have h1 : ((1000 - (1840 - 15 * 60) : Int) : ℚ) / 60 = 1 := by norm_num
  rw [h1]
  norm_num

/-- Witness for C10: the classifier at a concrete classified input, with the
returned minutes value (1) inside `[0, 15]`. -/
theorem claim10_witness :
    analyze_market_timing freshMarketOk 1000 = (true, some 940, some 1) ∧
    (0 ≤ (1 : ℚ) ∧ (1 : ℚ) ≤ 15) :=
  ⟨analyze_fresh_1000 freshMarketOk rfl,
   claim10_minutes_range freshMarketOk 1000 true 940 1 (analyze_fresh_1000 freshMarketOk rfl)⟩

/-- The engine's guard of lines 110-112: fewer than two legs short-circuits. -/
theorem core_short_legs (c : Option ℚ) (m : Market) (h : m.markets.length < 2) :
    generate_prediction_core c m = .ok ("UNKNOWN", "LOW", "Insufficient market data") := by
  simp only [generate_prediction_core]
  rw [if_pos h]

/-- The engine's guard of lines 118-119: a missing up or down leg
short-circuits. -/
theorem core_missing_leg (c : Option ℚ) (m : Market) (h2 : ¬ m.markets.length < 2)
    (hfind : find_up_leg m.markets = none ∨ find_down_leg m.markets = none) :
    generate_prediction_core c m = .ok ("UNKNOWN", "LOW", "Cannot find UP/DOWN outcomes") := by
  simp only [generate_prediction_core]
  rw [if_neg h2]
  cases hu : find_up_leg m.markets with
  | none => rfl
  | some u =>
      cases hd : find_down_leg m.markets with
      | none => rfl
      | some d =>
          exfalso
          rcases hfind with hf | hf
          · rw [hf] at hu; cases hu
          · rw [hf] at hd; cases hd

/-- Claim C5: the prediction engine never propagates an exception: whenever
the try body (the core) raises, the caught result is UNKNOWN/LOW with the
exception message embedded in the rationale; and the engine always returns a
prediction triple. -/
theorem claim5_engine_catches (p c : Option ℚ) (m : Market) :
    (∀ e, generate_prediction_core c m = .error e →
        generate_prediction p c m = ("UNKNOWN", "LOW", "Error in prediction: " ++ e)) ∧
    (∃ d cf r, generate_prediction p c m = (d, cf, r)) := by
  constructor
  · intro e he
    unfold generate_prediction
    rw [he]
  · exact ⟨(generate_prediction p c m).1, (generate_prediction p c m).2.1,
      (generate_prediction p c m).2.2, rfl⟩

/-- Witness for C5: a market whose up-leg price string is unparsable makes
the core raise, and the engine returns UNKNOWN/LOW with the message. -/
theorem claim5_witness :
    generate_prediction none none badPriceMarket =
      ("UNKNOWN", "LOW", "Error in prediction: " ++ "could not convert string to float: abc") :=
  (claim5_engine_catches none none badPriceMarket).1 "could not convert string to float: abc" rfl

/-- Claim C6: a market with fewer than two legs, or with no leg whose label
contains "up" or none containing "down", yields UNKNOWN/LOW with an
insufficient-data rationale (the remaining factors are short-circuited: the
returned rationale is exactly the guard's message). -/
theorem claim6_insufficient_data (p c : Option ℚ) (m : Market) :
    (m.markets.length < 2 →
        generate_prediction p c m = ("UNKNOWN", "LOW", "Insufficient market data")) ∧
    (2 ≤ m.markets.length →
      find_up_leg m.markets = none ∨ find_down_leg m.markets = none →
        generate_prediction p c m = ("UNKNOWN", "LOW", "Cannot find UP/DOWN outcomes")) := by
  constructor
  · intro h
    unfold generate_prediction
    rw [core_short_legs c m h]
  · intro h2 hfind
    unfold generate_prediction
    rw [core_missing_leg c m (by omega) hfind]

/-- Witness for C6: a one-leg market and an up/down-less two-leg market. -/
theorem claim6_witness :
    generate_prediction none none oneLegMarket = ("UNKNOWN", "LOW", "Insufficient market data") ∧
    generate_prediction none none noUpDownMarket =
      ("UNKNOWN", "LOW", "Cannot find UP/DOWN outcomes") :=
  ⟨(claim6_insufficient_data none none oneLegMarket).1 (by decide),
   (claim6_insufficient_data none none noUpDownMarket).2 (by decide) (Or.inl rfl)⟩

/-- Claim C9: a leg lacking the `outcomePrices` field defaults to probability
0.5 — odds 50 — in the prediction engine's leg reader, and the formatter
additionally renders a wholly absent up/down leg as 50. -/
theorem claim9_default_odds :
    (∀ leg : Leg, leg.outcomePrices = none → getLegOdds leg = .ok 50) ∧
    formatLegOdds none = .ok 50 ∧
    (∀ leg : Leg, leg.outcomePrices = none → formatLegOdds (some leg) = .ok 50) := by
  have h1 : ∀ leg : Leg, leg.outcomePrices = none → getLegOdds leg = .ok 50 := by
    intro leg h
    unfold getLegOdds
    rw [h]
    show Except.ok ((((0 : Nat) : ℚ) + ((5 : Nat) : ℚ) / (10 : ℚ) ^ (1 : Nat)) * 100) =
      Except.ok 50
    norm_num
  exact ⟨h1, rfl, fun leg h => h1 leg h⟩

/-- Witness for C9 on a concrete leg with no `outcomePrices` field. -/
theorem claim9_witness :
    getLegOdds noPricesLeg = .ok 50 ∧ formatLegOdds (some noPricesLeg) = .ok 50 :=
  ⟨claim9_default_odds.1 noPricesLeg rfl, claim9_default_odds.2.2 noPricesLeg rfl⟩

/-- Claim C8: with no configured webhook endpoint, dispatch returns the
failed result and echoes the full message text verbatim to the console
(the second print payload embeds the message between two newlines), for any
transport and any message. -/
theorem claim8_dispatch_unconfigured (post : String → Except String Unit) (message : String) :
    send_notification none post message =
      (false, ["⚠️  NEBULA_WEBHOOK_URL not set - notification not sent",
               "\n" ++ message ++ "\n"]) := rfl

/-- Claim C3 counterexample: on a well-formed market with a known spot price
but an unavailable 24h change (None), the formatter raises a TypeError
instead of substituting a placeholder and returning a text. -/
theorem claim3_counterexample :
    format_notification plainMarket (some 50000) none 940 1 =
      .error "unsupported format string passed to NoneType" := rfl

/-- Claim C3 (amended): the formatter returns a rendered text whenever the
spot price and 24h change are known (non-None) and the market's numeric
fields parse (legs and volume); missing optional market values — an absent
slug, absent `outcomePrices` (default 0.5), an absent up or down leg (50%),
an absent volume (0) — are substituted with defaults.  A None spot price or
24h change, or an unparsable numeric field, makes it raise instead. -/
theorem claim3_formatter_total_amended (m : Market) (bp bc : ℚ) (st : Int) (mins : ℚ)
    (h1 : (formatLegOdds (find_up_leg m.markets)).isOk = true)
    (h2 : (formatLegOdds (find_down_leg m.markets)).isOk = true)
    (h3 : (parseVolume m.volume).isOk = true) :
    (format_notification m (some bp) (some bc) st mins).isOk = true := by
  simp only [format_notification]
  cases hu : formatLegOdds (find_up_leg m.markets) with
  | error e => rw [hu] at h1; exact Bool.noConfusion h1
  | ok up_odds =>
      cases hd : formatLegOdds (find_down_leg m.markets) with
      | error e => rw [hd] at h2; exact Bool.noConfusion h2
      | ok down_odds =>
          cases hv : parseVolume m.volume with
          | error e => rw [hv] at h3; exact Bool.noConfusion h3
          | ok volume => rfl

/-- Witness for C3 (amended) on a market whose legs lack `outcomePrices` and
which lacks a volume field: the defaults apply and a text is returned. -/
theorem claim3_witness :
    (format_notification noPricesMarket (some 50000) (some (3 / 2)) 940 1).isOk = true :=
  claim3_formatter_total_amended noPricesMarket 50000 (3 / 2) 940 1 rfl rfl rfl

/-- Claim C4 counterexample: in a cycle over two fresh markets, the first
market's formatter exception (unparsable volume string) aborts the loop, so
the second market — processable on its own — is not processed. -/
theorem claim4_counterexample :
    (process_markets (some 50000) (some 1) none postStub 1000
        [badVolumeMarket, freshMarketOk]).isOk = false ∧
    (process_markets (some 50000) (some 1) none postStub 1000 [freshMarketOk]).isOk = true := by
  constructor
  · simp only [process_markets]
    rw [analyze_fresh_1000 badVolumeMarket rfl]
    rfl
  · simp only [process_markets]
    rw [analyze_fresh_1000 freshMarketOk rfl]
    rfl

/-- Claim C4 (amended): the classify, predict and dispatch stages absorb
their exceptions, so when the formatter succeeds on every fresh instance the
whole cycle runs to completion; but an exception escaping the formatter
aborts the remaining instances of the cycle (see the counterexample). -/
theorem claim4_cycle_amended (bp bc : Option ℚ) (url : Option String)
    (post : String → Except String Unit) (now : Int) (markets : List Market)
    (h : markets.all (fresh_format_ok bp bc now) = true) :
    (process_markets bp bc url post now markets).isOk = true := by
  induction markets with
  | nil => rfl
  | cons m rest ih =>
      rw [List.all_cons, Bool.and_eq_true] at h
      obtain ⟨hm, hrest⟩ := h
      rcases ha : analyze_market_timing m now with ⟨b, ost, omins⟩
      cases b with
      | false =>
          have hstep : process_markets bp bc url post now (m :: rest) =
              process_markets bp bc url post now rest := by
            simp only [process_markets]
            rw [ha]
          rw [hstep]
          exact ih hrest
      | true =>
          cases ost with
          | none =>
              have hstep : process_markets bp bc url post now (m :: rest) =
                  process_markets bp bc url post now rest := by
                simp only [process_markets]
                rw [ha]
              rw [hstep]
              exact ih hrest
          | some st =>
              cases omins with
              | none =>
                  have hstep : process_markets bp bc url post now (m :: rest) =
                      process_markets bp bc url post now rest := by
                    simp only [process_markets]
                    rw [ha]
                  rw [hstep]
                  exact ih hrest
              | some mins =>
                  have hstep : process_markets bp bc url post now (m :: rest) =
                      match format_notification m bp bc st mins with
                      | .error e => .error e
                      | .ok msg =>
                          match process_markets bp bc url post now rest with
                          | .error e => .error e
                          | .ok results =>
                              .ok (send_notification url post msg :: results) := by
                    simp only [process_markets]
                    rw [ha]
                  rw [hstep]
                  have hm2 : (format_notification m bp bc st mins).isOk = true := by
                    unfold fresh_format_ok at hm
                    rw [ha] at hm
                    exact hm
                  cases hf : format_notification m bp bc st mins with
                  | error e => rw [hf] at hm2; exact Bool.noConfusion hm2
                  | ok msg =>
                      have hr2 := ih hrest
                      cases hr : process_markets bp bc url post now rest with
                      | error e => rw [hr] at hr2; exact Bool.noConfusion hr2
                      | ok results => rfl

/-- Witness for C4 (amended): a one-market cycle whose fresh market formats
successfully runs to completion. -/
theorem claim4_witness :
    (process_markets (some 50000) (some 1) none postStub 1000 [freshMarketOk]).isOk = true := by
  apply claim4_cycle_amended
  simp only [List.all_cons, List.all_nil, fresh_format_ok]
  rw [analyze_fresh_1000 freshMarketOk rfl]
  rfl
